import Mathlib

/-!
Verification development for the Plankton-Fusion training orchestrator
(`feature_extraction/train_autoencoder.py`) and its utilities
(`tools/utils.py`).  The Python source is shallowly embedded: pure
computations become Lean functions over `List`/`ℚ`, the training loop
becomes an explicit state-passing interpreter emitting a trace of
observable events, and Python exceptions become `Except` errors.
-/

namespace PlanktonFusion

/-! ## Class-weight calculator
Embeds lines 74-78 of `train_autoencoder.py`:
  class_counts = train_dataset.data_frame["label"].value_counts().sort_index().tolist()
  total_samples = sum(class_counts)
  class_weights = [total_samples / (config.sampling.num_class * count) for count in class_counts]
  class_weights_tensor = torch.FloatTensor(class_weights)
  class_weights_tensor = class_weights_tensor / class_weights_tensor.sum()
Floats are modelled by `ℚ`. -/

/-- The distinct values occurring in `labels`, in ascending order
(the index of pandas `value_counts().sort_index()`). -/
def sorted_distinct (labels : List ℕ) : List ℕ :=
  (List.range (labels.foldr max 0 + 1)).filter (fun v => labels.contains v)

/-- `value_counts().sort_index().tolist()`: the occurrence count of each
distinct label value, listed in ascending order of the value.  A value
that never occurs contributes no entry at all. -/
def value_counts_sort_index (labels : List ℕ) : List ℕ :=
  (sorted_distinct labels).map (fun v => labels.count v)

/-- `class_counts` as computed by the source (alias for the pandas chain). -/
def class_counts (labels : List ℕ) : List ℕ :=
  value_counts_sort_index labels

/-- `total_samples = sum(class_counts)`. -/
def total_samples (labels : List ℕ) : ℕ :=
  (class_counts labels).sum

/-- The raw (un-normalized) weight list
`[total_samples / (num_class * count) for count in class_counts]`. -/
def class_weights (labels : List ℕ) (num_class : ℕ) : List ℚ :=
  (class_counts labels).map
    (fun (c : ℕ) => (total_samples labels : ℚ) / ((num_class : ℚ) * (c : ℚ)))

/-- The normalized weight vector `class_weights_tensor / class_weights_tensor.sum()`. -/
def class_weights_normalized (labels : List ℕ) (num_class : ℕ) : List ℚ :=
  let w := class_weights labels num_class
  w.map (fun x => x / w.sum)

/-! ## Training-loop orchestrator
Embeds the control flow of `train_autoencoder` as a trace-producing
interpreter.  Observable effects on the run output directory and the
criterion/optimizer become `Event`s; `console.quit` and uncaught Python
exceptions become `Except.error` carrying the state reached so far. -/

/-- Files that `train_autoencoder` writes into the timestamped training
directory: the configuration snapshot, the per-epoch loss plot, an
intermediate checkpoint `model_weights_epoch_N.pth` (the name embeds
the 1-based epoch number `N`), and the final `model_weights_final.pth`. -/
inductive Artifact where
  | configYaml : Artifact
  | epochFile : ℕ → Artifact
  | finalFile : Artifact
deriving DecidableEq, Repr

/-- A tensor flowing through one batch step: the image batch of
`(epoch, batch)` or its label batch. -/
inductive BatchTensor where
  | images : ℕ → ℕ → BatchTensor
  | labelsOf : ℕ → ℕ → BatchTensor
deriving DecidableEq, Repr

/-- Observable events of one run, in program order. -/
inductive Event where
  | mkdirTraining : Event
  | configWritten : Event
  | memoryProbe : Event
  | epochStart : ℕ → Event
  | criterionCall : ℕ → ℕ → BatchTensor → Event
  | optimizerStep : ℕ → ℕ → Event
  | lossAppend : ℕ → ℚ → Event
  | plotCall : List ℚ → ℕ → Event
  | saveWeights : Artifact → Event
deriving DecidableEq, Repr

/-- Ways the Python process dies: `console.quit` calls (missing input
csv, pre-existing output folder, unrecognized `architecture_type`) and
uncaught exceptions (`NameError` from using the never-assigned
`criterion`, `ZeroDivisionError`). -/
inductive RunError where
  | inputCsvMissing : RunError
  | outputFolderExists : RunError
  | badArchitecture : RunError
  | nameErrorCriterion : RunError
  | zeroDivision : RunError
deriving DecidableEq, Repr

/-- Mutable state of the orchestrator: the trace of events so far and
the Python list `loss_values`. -/
structure RunState where
  events : List Event
  loss_values : List ℚ
deriving DecidableEq, Repr

/-- Append events to the trace. -/
def pushEvents (s : RunState) (evs : List Event) : RunState :=
  RunState.mk (s.events ++ evs) s.loss_values

/-- Append one element to `loss_values`. -/
def appendLoss (s : RunState) (v : ℚ) : RunState :=
  RunState.mk s.events (s.loss_values ++ [v])

/-- The configuration fields `train_autoencoder` reads. -/
structure AEConfig where
  num_class : ℕ
  architecture_type : String
  loss : String
  num_epoch : ℕ
  save_model_every_n_epoch : ℕ
deriving DecidableEq, Repr

/-- The run environment: filesystem facts, the manifest label column,
the loader (its batch count, i.e. `len(train_loader)`), the scalar loss
each batch step produces, and the device kind. -/
structure Env where
  inputCsvExists : Bool
  trainingPathExists : Bool
  labels : List ℕ
  numBatches : ℕ
  batchLoss : ℕ → ℕ → ℚ
  deviceIsCuda : Bool

/-- The architecture selector chain of lines 89-101: recognized values
are exactly `conv_autoencoder` and `resnet18`. -/
def archOk (cfg : AEConfig) : Bool :=
  cfg.architecture_type == "conv_autoencoder" || cfg.architecture_type == "resnet18"

/-- The loss selector chain of lines 104-111.  It has no `else` branch:
with any other selector the local `criterion` is simply never assigned. -/
def criterionOk (cfg : AEConfig) : Bool :=
  cfg.loss == "cross_entropy" || cfg.loss == "cross_entropy_weight" ||
    cfg.loss == "focal" || cfg.loss == "mse"

/-- The supervision target of one batch step (lines 135-141): with the
`conv_autoencoder` architecture the line `labels = images` rebinds the
target to the input batch itself; otherwise the manifest labels stand. -/
def batchTarget (cfg : AEConfig) (e b : ℕ) : BatchTensor :=
  if cfg.architecture_type = "conv_autoencoder" then BatchTensor.images e b
  else BatchTensor.labelsOf e b

/-- Events of the inner batch loop of epoch `e` when `criterion` is
defined: each batch computes the loss against `batchTarget` and takes an
optimizer step. -/
def batchLoop (cfg : AEConfig) (env : Env) (e : ℕ) : List Event :=
  (List.range env.numBatches).flatMap
    (fun b => [Event.criterionCall e b (batchTarget cfg e b), Event.optimizerStep e b])

/-- `average_loss` at the end of epoch `e`: the running sum of
`loss.item()` over the batches, divided by `len(train_loader)`. -/
def epochAvg (env : Env) (e : ℕ) : ℚ :=
  ((List.range env.numBatches).map (env.batchLoss e)).sum / (env.numBatches : ℚ)

/-- One iteration of the epoch loop (lines 128-161), epoch index `e`
(0-based; logs and filenames use `e + 1`).  A run with an unrecognized
loss selector raises `NameError` at the first `criterion(outputs,
labels)` call; an empty loader raises `ZeroDivisionError` at the
`average_loss` division; a zero checkpoint cadence raises
`ZeroDivisionError` at the `(epoch + 1) % cadence` test. -/
def epochStep (cfg : AEConfig) (env : Env) (e : ℕ) (s : RunState) :
    Except (RunState × RunError) RunState :=
  let s1 := pushEvents s [Event.epochStart e]
  if criterionOk cfg = false ∧ 0 < env.numBatches then
    Except.error (s1, RunError.nameErrorCriterion)
  else
    let s2 := pushEvents s1 (batchLoop cfg env e)
    if env.numBatches = 0 then
      Except.error (s2, RunError.zeroDivision)
    else
      let avg := epochAvg env e
      let s3 := appendLoss s2 avg
      let s4 := pushEvents s3
        [Event.lossAppend e avg, Event.plotCall s3.loss_values (e + 1)]
      if cfg.save_model_every_n_epoch = 0 then
        Except.error (s4, RunError.zeroDivision)
      else if (e + 1) % cfg.save_model_every_n_epoch = 0 then
        Except.ok (pushEvents s4 [Event.saveWeights (Artifact.epochFile (e + 1))])
      else
        Except.ok s4

/-- State after the pre-loop effects that precede the first epoch: the
training directory was created, `config.yaml` written (line 49, before
the selector checks) and the memory probe ran. -/
def preLoopState : RunState :=
  RunState.mk [Event.mkdirTraining, Event.configWritten, Event.memoryProbe] []

/-- The first `k` iterations of the epoch loop, starting from
`preLoopState`. -/
def runEpochs (cfg : AEConfig) (env : Env) : ℕ → Except (RunState × RunError) RunState
  | 0 => Except.ok preLoopState
  | k + 1 =>
    match runEpochs cfg env k with
    | Except.error x => Except.error x
    | Except.ok s => epochStep cfg env k s

/-- The whole of `train_autoencoder`: the input-csv check, the
fail-fast on a pre-existing output directory, directory creation and
config snapshot, the architecture selector check, the epoch loop, and
the final plot and final checkpoint. -/
def train_autoencoder (cfg : AEConfig) (env : Env) :
    Except (RunState × RunError) RunState :=
  if env.inputCsvExists = false then
    Except.error (RunState.mk [] [], RunError.inputCsvMissing)
  else if env.trainingPathExists = true then
    Except.error (RunState.mk [] [], RunError.outputFolderExists)
  else if archOk cfg = false then
    Except.error (RunState.mk [Event.mkdirTraining, Event.configWritten] [],
      RunError.badArchitecture)
  else
    match runEpochs cfg env cfg.num_epoch with
    | Except.error x => Except.error x
    | Except.ok s =>
      Except.ok (pushEvents s
        [Event.plotCall s.loss_values cfg.num_epoch, Event.saveWeights Artifact.finalFile])

/-- The checkpoints recorded in a trace, in write order. -/
def savedFiles (evs : List Event) : List Artifact :=
  evs.filterMap (fun ev =>
    match ev with
    | Event.saveWeights a => some a
    | _ => none)

/-! ## Memory probe
Embeds `memory_usage` of `tools/utils.py` (lines 94-116).  The memory
counters (`torch.cuda.memory_allocated`, `psutil.virtual_memory().used`)
are environment inputs sampled before and after the one forward pass. -/

/-- Shape of a 4-D batch tensor `(batch, channels, height, width)`. -/
structure TensorShape where
  n : ℕ
  c : ℕ
  h : ℕ
  w : ℕ
deriving DecidableEq, Repr

/-- The configuration fields feeding the memory probe. -/
structure ProbeConfig where
  target_size : ℕ × ℕ
  gray : Bool
deriving DecidableEq, Repr

/-- Modelled from the spec: the channel count implied by the
configuration ("matching configured channel count"), determined by the
`gray` flag of the autoencoder configuration — grayscale means one
channel, otherwise three.  The models package that consumes `gray` is
not part of the two embedded source files. -/
def configuredChannels (cfg : ProbeConfig) : ℕ :=
  if cfg.gray then 1 else 3

/-- Result of one `memory_usage` call: the shape of the synthetic input
batch, how many forward passes ran, the report prefix, and the reported
delta (bytes divided by 1024 * 1024). -/
structure ProbeResult where
  inputShape : TensorShape
  forwardPasses : ℕ
  tag : String
  deltaMiB : ℚ
deriving DecidableEq, Repr

/-- `memory_usage(config, model, device)`: builds
`torch.randn((2, 1, target_size[0], target_size[1]))`, runs one forward
pass and reports the before/after delta of the device-appropriate
memory counter in MiB. -/
def memory_usage (cfg : ProbeConfig) (deviceIsCuda : Bool)
    (gpuBefore gpuAfter cpuBefore cpuAfter : ℤ) : ProbeResult :=
  let shape := TensorShape.mk 2 1 cfg.target_size.1 cfg.target_size.2
  if deviceIsCuda then
    ProbeResult.mk shape 1 "GPU Memory Used (MB)"
      (((gpuAfter - gpuBefore : ℤ) : ℚ) / (1024 * 1024))
  else
    ProbeResult.mk shape 1 "CPU Memory Used (MB)"
      (((cpuAfter - cpuBefore : ℤ) : ℚ) / (1024 * 1024))

/-! ## Plotting utility
Embeds `plot_loss` of `tools/utils.py` (lines 26-46). -/

/-- Failure mode of the external line-plot call. -/
inductive PlotError where
  | dimensionMismatch : PlotError
deriving DecidableEq, Repr

/-- Modelled from the plotting library contract the source relies on:
`plt.plot(x, y)` with two sequence arguments raises a `ValueError`
("x and y must have same first dimension") whenever their lengths
differ, and succeeds otherwise. -/
def plt_plot (x : List ℚ) (y : List ℚ) : Except PlotError Unit :=
  if x.length = y.length then Except.ok () else Except.error PlotError.dimensionMismatch

/-- `np.arange(a, b)` on naturals: the ascending list `[a, a+1, ..., b-1]`. -/
def np_arange (a b : ℕ) : List ℕ :=
  List.range' a (b - a)

/-- `plot_loss(loss_values, num_epoch, training_path)`: plots
`np.arange(1, num_epoch + 1)` against `loss_values` and writes the
figure; the filesystem side effect is not modelled, only the plot call
that can raise. -/
def plot_loss (loss_values : List ℚ) (num_epoch : ℕ) : Except PlotError Unit :=
  plt_plot ((np_arange 1 (num_epoch + 1)).map (fun (n : ℕ) => (n : ℚ))) loss_values

/-! ## Helper lemmas -/

theorem le_foldr_max (l : List ℕ) (a : ℕ) (h : a ∈ l) : a ≤ l.foldr max 0 := by
  induction l with
  | nil => cases h
  | cons b l ih =>
    rcases List.mem_cons.mp h with rfl | h2
    · exact le_max_left _ _
    · exact le_trans (ih h2) (le_max_right _ _)

theorem foldr_max_lt (l : List ℕ) (n : ℕ) (hn : 0 < n) (h : ∀ a ∈ l, a < n) :
    l.foldr max 0 < n := by
  induction l with
  | nil => simpa using hn
  | cons b l ih =>
    simp only [List.foldr_cons]
    exact max_lt (h b (by simp)) (ih (fun a ha => h a (List.mem_cons_of_mem _ ha)))

/-- Under a complete manifest, the sorted distinct label values are
exactly `0, 1, ..., num_class - 1`. -/
theorem sorted_distinct_complete (labels : List ℕ) (num_class : ℕ)
    (hnc : 0 < num_class)
    (hub : ∀ l ∈ labels, l < num_class)
    (hall : ∀ c, c < num_class → c ∈ labels) :
    sorted_distinct labels = List.range num_class := by
  have hmax : labels.foldr max 0 + 1 = num_class := by
    have h1 : labels.foldr max 0 < num_class := foldr_max_lt labels num_class hnc hub
    have h2 : num_class - 1 ≤ labels.foldr max 0 :=
      le_foldr_max labels (num_class - 1) (hall _ (by omega))
    omega
  unfold sorted_distinct
  rw [hmax]
  apply List.filter_eq_self.mpr
  intro a ha
  have : a ∈ labels := hall a (List.mem_range.mp ha)
  exact List.elem_iff.mpr this

theorem sum_map_div (w : List ℚ) (s : ℚ) :
    (w.map (fun x => x / s)).sum = w.sum / s := by
  induction w with
  | nil => simp
  | cons a w ih => simp [ih, add_div]

/-! ## C2 and C3: the class-weight calculator -/

/-- C2: the claim says a class index with zero observed samples must be
reported as a fatal configuration error and never yield a weight vector
shorter than `numClasses`.  Evaluating the embedded calculator at the
failing input `labels = [0, 0, 2]`, `num_class = 3` (class 1 absent)
shows the code raises nothing: `value_counts` silently omits the absent
class, yielding the 2-element vector `[1/3, 2/3]` — shorter than
`num_class = 3`, with no error and no infinite value. -/
theorem absent_class_silently_shortens_weights :
    class_counts [0, 0, 2] = [2, 1] ∧
    class_weights_normalized [0, 0, 2] 3 = [1/3, 2/3] ∧
    (class_weights_normalized [0, 0, 2] 3).length = 2 ∧
    ¬(class_weights_normalized [0, 0, 2] 3).length = 3 := by
  have h1 : class_counts [0, 0, 2] = [2, 1] := by decide
  have ht : total_samples [0, 0, 2] = 3 := by decide
  have h2 : class_weights [0, 0, 2] 3 = [1/2, 1] := by
    unfold class_weights
    rw [h1, ht]
    norm_num
  have h3 : class_weights_normalized [0, 0, 2] 3 = [1/3, 2/3] := by
    unfold class_weights_normalized
    rw [h2]
    norm_num
  refine ⟨h1, h3, ?_, ?_⟩ <;> rw [h3] <;> decide

/-- C3: for a manifest in which every class index below `num_class`
occurs (all per-class counts positive), the calculator counts
occurrences positionally by class index, sets the raw weight of class
`c` to `total / (num_class * count c)`, normalizes to sum exactly 1,
produces only positive weights, and orders weights inversely to
counts. -/
theorem class_weights_inverse_frequency (labels : List ℕ) (num_class : ℕ)
    (hnc : 0 < num_class)
    (hub : ∀ l ∈ labels, l < num_class)
    (hall : ∀ c, c < num_class → c ∈ labels) :
    class_counts labels = (List.range num_class).map (fun c => labels.count c) ∧
    class_weights labels num_class = (List.range num_class).map
      (fun c => (total_samples labels : ℚ) / ((num_class : ℚ) * (labels.count c : ℚ))) ∧
    (class_weights_normalized labels num_class).length = num_class ∧
    (class_weights_normalized labels num_class).sum = 1 ∧
    (∀ x ∈ class_weights_normalized labels num_class, 0 < x) ∧
    (∀ i j, i < num_class → j < num_class → labels.count i < labels.count j →
      (class_weights_normalized labels num_class).getD j 0 <
        (class_weights_normalized labels num_class).getD i 0) := by
  have hcounts : class_counts labels =
      (List.range num_class).map (fun c => labels.count c) := by
    unfold class_counts value_counts_sort_index
    rw [sorted_distinct_complete labels num_class hnc hub hall]
  have hcountpos : ∀ c, c < num_class → 0 < labels.count c :=
    fun c hc => List.count_pos_iff.mpr (hall c hc)
  have htotpos : 0 < total_samples labels := by
    unfold total_samples
    rw [hcounts]
    apply List.sum_pos
    · intro x hx
      rcases List.mem_map.mp hx with ⟨c, hc, rfl⟩
      exact hcountpos c (List.mem_range.mp hc)
    · simp only [ne_eq, List.map_eq_nil_iff, List.range_eq_nil]
      omega
  have hweights : class_weights labels num_class = (List.range num_class).map
      (fun c => (total_samples labels : ℚ) / ((num_class : ℚ) * (labels.count c : ℚ))) := by
    unfold class_weights
    rw [hcounts, List.map_map]
    rfl
  have hwpos : ∀ x ∈ class_weights labels num_class, 0 < x := by
    intro x hx
    rw [hweights] at hx
    rcases List.mem_map.mp hx with ⟨c, hc, rfl⟩
    apply div_pos
    · exact_mod_cast htotpos
    · have := hcountpos c (List.mem_range.mp hc)
      positivity
  have hsumpos : 0 < (class_weights labels num_class).sum := by
    apply List.sum_pos _ hwpos
    rw [hweights]
    simp only [ne_eq, List.map_eq_nil_iff, List.range_eq_nil]
    omega
  have hlen : (class_weights_normalized labels num_class).length = num_class := by
    unfold class_weights_normalized
    rw [List.length_map, hweights, List.length_map, List.length_range]
  refine ⟨hcounts, hweights, hlen, ?_, ?_, ?_⟩
  · unfold class_weights_normalized
    rw [sum_map_div]
    exact div_self (ne_of_gt hsumpos)
  · intro x hx
    unfold class_weights_normalized at hx
    rcases List.mem_map.mp hx with ⟨y, hy, rfl⟩
    exact div_pos (hwpos y hy) hsumpos
  · intro i j hi hj hij
    have hcw : ∀ k, k < num_class → (class_weights labels num_class)[k]? =
        some ((total_samples labels : ℚ) / ((num_class : ℚ) * (labels.count k : ℚ))) := by
      intro k hk
      rw [hweights, List.getElem?_map, List.getElem?_range hk]
      rfl
    have hget : ∀ k, k < num_class →
        (class_weights_normalized labels num_class).getD k 0 =
          ((total_samples labels : ℚ) / ((num_class : ℚ) * (labels.count k : ℚ))) /
            (class_weights labels num_class).sum := by
      intro k hk
      show ((class_weights labels num_class).map
        (fun x => x / (class_weights labels num_class).sum)).getD k 0 = _
      rw [List.getD_eq_getElem?_getD, List.getElem?_map, hcw k hk]
      rfl
    rw [hget i hi, hget j hj]
    rw [div_lt_div_iff_of_pos_right hsumpos]
    apply div_lt_div_of_pos_left
    · exact_mod_cast htotpos
    · have := hcountpos i hi
      positivity
    · have h1 : (labels.count i : ℚ) < labels.count j := by exact_mod_cast hij
      have h2 : (0:ℚ) < num_class := by exact_mod_cast hnc
      exact (mul_lt_mul_left h2).mpr h1

/-- Witness for C3 at the concrete manifest `[0, 1, 1]` with two
classes: the normalized vector is `[2/3, 1/3]`, sums to 1, and class 0
(the rarer one) gets the larger weight. -/
theorem class_weights_inverse_frequency_witness :
    (class_weights_normalized [0, 1, 1] 2).sum = 1 ∧
    (∀ x ∈ class_weights_normalized [0, 1, 1] 2, 0 < x) ∧
    (class_weights_normalized [0, 1, 1] 2).getD 1 0 <
      (class_weights_normalized [0, 1, 1] 2).getD 0 0 := by
  have h := class_weights_inverse_frequency [0, 1, 1] 2 (by decide) (by decide)
    (by decide)
  exact ⟨h.2.2.2.1, h.2.2.2.2.1, h.2.2.2.2.2 0 1 (by decide) (by decide) (by decide)⟩

/-! ## Run-model helper lemmas -/

/-- Once the epoch loop has died, later iterations change nothing. -/
theorem runEpochs_error_stable (cfg : AEConfig) (env : Env) (k : ℕ)
    (x : RunState × RunError) (h : runEpochs cfg env k = Except.error x) (m : ℕ) :
    runEpochs cfg env (k + m) = Except.error x := by
  induction m with
  | zero => exact h
  | succ m ih =>
    show runEpochs cfg env (k + m + 1) = Except.error x
    rw [runEpochs, ih]

/-- The trace of one successful epoch under a healthy configuration:
what `epochStep` appends when the criterion is defined, the loader is
nonempty and the cadence is positive. -/
def goodEpochTrace (cfg : AEConfig) (env : Env) (e : ℕ) : List Event :=
  [Event.epochStart e] ++ batchLoop cfg env e ++
    [Event.lossAppend e (epochAvg env e),
     Event.plotCall ((List.range (e + 1)).map (epochAvg env)) (e + 1)] ++
    (if (e + 1) % cfg.save_model_every_n_epoch = 0
      then [Event.saveWeights (Artifact.epochFile (e + 1))] else [])

/-- Closed form of the epoch loop under a healthy configuration. -/
theorem runEpochs_good (cfg : AEConfig) (env : Env)
    (hc : criterionOk cfg = true) (hB : 0 < env.numBatches)
    (hN : 0 < cfg.save_model_every_n_epoch) (k : ℕ) :
    runEpochs cfg env k = Except.ok (RunState.mk
      (preLoopState.events ++ (List.range k).flatMap (goodEpochTrace cfg env))
      ((List.range k).map (epochAvg env))) := by
  induction k with
  | zero => simp [runEpochs, preLoopState]
  | succ k ih =>
    rw [runEpochs, ih]
    have hc' : ¬(criterionOk cfg = false ∧ 0 < env.numBatches) := by simp [hc]
    have hB' : ¬(env.numBatches = 0) := by omega
    have hN' : ¬(cfg.save_model_every_n_epoch = 0) := by omega
    simp only [epochStep, pushEvents, appendLoss, hc', hB', hN', if_neg, if_false,
      List.range_succ, List.flatMap_append, List.flatMap_cons, List.flatMap_nil,
      List.map_append, List.map_cons, List.map_nil]
    by_cases hmod : (k + 1) % cfg.save_model_every_n_epoch = 0
    · rw [if_pos hmod]
      simp [goodEpochTrace, hmod, List.range_succ]
    · rw [if_neg hmod]
      simp [goodEpochTrace, hmod, List.range_succ]

/-! ## C6: pre-existing output directory -/

/-- C6: when the resolved timestamped output directory already exists
(and the input csv check passed), `train_autoencoder` dies with the
`Folder exists` quit before creating or writing anything and before any
epoch: the trace of the aborted run is empty. -/
theorem existing_output_dir_aborts_untouched (cfg : AEConfig) (env : Env)
    (hcsv : env.inputCsvExists = true) (hdir : env.trainingPathExists = true) :
    train_autoencoder cfg env =
      Except.error (RunState.mk [] [], RunError.outputFolderExists) := by
  unfold train_autoencoder
  rw [hcsv, hdir]
  simp

/-- Witness for C6 at a concrete configuration and environment. -/
theorem existing_output_dir_aborts_untouched_witness :
    train_autoencoder (AEConfig.mk 3 "conv_autoencoder" "mse" 2 1)
        (Env.mk true true [0, 1] 1 (fun _ _ => 0) false) =
      Except.error (RunState.mk [] [], RunError.outputFolderExists) :=
  existing_output_dir_aborts_untouched _ _ rfl rfl

/-! ## C9: empty loader crashes with a division error -/

/-- C9: with a recognized architecture but a loader that yields zero
batches, the first epoch reaches the `average_loss` division, divides
the running accumulator by `len(train_loader) = 0`, and the run dies
with an uncaught `ZeroDivisionError` — not with a reported
configuration error.  The trace shows epoch 0 had started and nothing
was appended to the loss history. -/
theorem empty_loader_zero_division (cfg : AEConfig) (env : Env)
    (hcsv : env.inputCsvExists = true) (hdir : env.trainingPathExists = false)
    (ha : archOk cfg = true) (hB : env.numBatches = 0) (hE : 0 < cfg.num_epoch) :
    train_autoencoder cfg env = Except.error
      (RunState.mk (preLoopState.events ++ [Event.epochStart 0]) [],
        RunError.zeroDivision) := by
  have h1 : runEpochs cfg env 1 = Except.error
      (RunState.mk (preLoopState.events ++ [Event.epochStart 0]) [],
        RunError.zeroDivision) := by
    show epochStep cfg env 0 preLoopState = _
    simp [epochStep, pushEvents, batchLoop, hB, preLoopState]
  have h2 : runEpochs cfg env cfg.num_epoch = Except.error
      (RunState.mk (preLoopState.events ++ [Event.epochStart 0]) [],
        RunError.zeroDivision) := by
    have := runEpochs_error_stable cfg env 1 _ h1 (cfg.num_epoch - 1)
    rwa [show 1 + (cfg.num_epoch - 1) = cfg.num_epoch by omega] at this
  unfold train_autoencoder
  rw [hcsv, hdir, ha]
  simp [h2]

/-- Witness for C9: a run over an empty manifest with one epoch. -/
theorem empty_loader_zero_division_witness :
    train_autoencoder (AEConfig.mk 3 "conv_autoencoder" "mse" 1 1)
        (Env.mk true false [] 0 (fun _ _ => 0) false) = Except.error
      (RunState.mk (preLoopState.events ++ [Event.epochStart 0]) [],
        RunError.zeroDivision) :=
  empty_loader_zero_division _ _ rfl rfl rfl rfl (by decide)

/-! ## C1: selector failures at construction time -/

/-- A concrete configuration with a recognized architecture but an
unrecognized loss selector. -/
def cfgBadLoss : AEConfig := AEConfig.mk 3 "conv_autoencoder" "bad_loss" 1 1

/-- A healthy concrete environment: input csv present, fresh output
directory, a one-row manifest and a one-batch loader. -/
def envOneBatch : Env := Env.mk true false [0] 1 (fun _ _ => 0) false

/-- C1 counterexample: with an unrecognized loss selector the run does
NOT fail at construction time: `config.yaml` has been written into the
training directory and epoch 0 has started before the run dies — only
then does the first `criterion(outputs, labels)` call raise `NameError`
because the selector chain has no `else` branch and never bound
`criterion`.  This refutes both "before any epoch executes" and "no
partial artifacts". -/
theorem unrecognized_loss_reaches_first_epoch :
    train_autoencoder cfgBadLoss envOneBatch = Except.error
      (RunState.mk [Event.mkdirTraining, Event.configWritten, Event.memoryProbe,
        Event.epochStart 0] [], RunError.nameErrorCriterion) ∧
    Event.epochStart 0 ∈ [Event.mkdirTraining, Event.configWritten, Event.memoryProbe,
      Event.epochStart 0] ∧
    Event.configWritten ∈ [Event.mkdirTraining, Event.configWritten, Event.memoryProbe,
      Event.epochStart 0] := by
  refine ⟨?_, by decide, by decide⟩
  rfl

/-- C1 amended: an unrecognized architecture selector is indeed fatal
at construction time, before any epoch (`console.quit` in the `else`
branch) — though the configuration snapshot has already been written
into the training directory.  An unrecognized loss selector, by
contrast, is not detected at construction: with a recognized
architecture, at least one epoch and a nonempty loader the run enters
epoch 0 and dies there with `NameError` at the first criterion call. -/
theorem selector_failure_modes (cfg : AEConfig) (env : Env)
    (hcsv : env.inputCsvExists = true) (hdir : env.trainingPathExists = false) :
    (archOk cfg = false →
      train_autoencoder cfg env = Except.error
        (RunState.mk [Event.mkdirTraining, Event.configWritten] [],
          RunError.badArchitecture) ∧
      ∀ e, Event.epochStart e ∉ [Event.mkdirTraining, Event.configWritten]) ∧
    (archOk cfg = true → criterionOk cfg = false → 0 < cfg.num_epoch →
      0 < env.numBatches →
      train_autoencoder cfg env = Except.error
        (RunState.mk (preLoopState.events ++ [Event.epochStart 0]) [],
          RunError.nameErrorCriterion) ∧
      Event.configWritten ∈ preLoopState.events ++ [Event.epochStart 0]) := by
  constructor
  · intro ha
    constructor
    · unfold train_autoencoder
      rw [hcsv, hdir, ha]
      simp
    · intro e
      simp
  · intro ha hc hE hB
    have h1 : runEpochs cfg env 1 = Except.error
        (RunState.mk (preLoopState.events ++ [Event.epochStart 0]) [],
          RunError.nameErrorCriterion) := by
      show epochStep cfg env 0 preLoopState = _
      simp [epochStep, pushEvents, preLoopState, hc, hB]
    have h2 : runEpochs cfg env cfg.num_epoch = Except.error
        (RunState.mk (preLoopState.events ++ [Event.epochStart 0]) [],
          RunError.nameErrorCriterion) := by
      have := runEpochs_error_stable cfg env 1 _ h1 (cfg.num_epoch - 1)
      rwa [show 1 + (cfg.num_epoch - 1) = cfg.num_epoch by omega] at this
    constructor
    · unfold train_autoencoder
      rw [hcsv, hdir, ha]
      simp [h2]
    · simp [preLoopState]

/-- Witness for the amended C1, exercising both halves: an unrecognized
architecture aborts with nothing but the directory and config snapshot
written, and the unrecognized-loss run of `cfgBadLoss` dies inside
epoch 0. -/
theorem selector_failure_modes_witness :
    (train_autoencoder (AEConfig.mk 3 "vit" "mse" 1 1) envOneBatch = Except.error
      (RunState.mk [Event.mkdirTraining, Event.configWritten] [],
        RunError.badArchitecture) ∧
      ∀ e, Event.epochStart e ∉ [Event.mkdirTraining, Event.configWritten]) ∧
    (train_autoencoder cfgBadLoss envOneBatch = Except.error
      (RunState.mk (preLoopState.events ++ [Event.epochStart 0]) [],
        RunError.nameErrorCriterion) ∧
      Event.configWritten ∈ preLoopState.events ++ [Event.epochStart 0]) :=
  ⟨(selector_failure_modes (AEConfig.mk 3 "vit" "mse" 1 1) envOneBatch rfl rfl).1 rfl,
   (selector_failure_modes cfgBadLoss envOneBatch rfl rfl).2 rfl rfl
     (by decide) (by decide)⟩

/-! ## C4: checkpoint cadence -/

theorem savedFiles_append (a b : List Event) :
    savedFiles (a ++ b) = savedFiles a ++ savedFiles b :=
  List.filterMap_append a b _

theorem savedFiles_batchLoop (cfg : AEConfig) (env : Env) (e : ℕ) :
    savedFiles (batchLoop cfg env e) = [] := by
  unfold batchLoop
  induction List.range env.numBatches with
  | nil => rfl
  | cons a l ih =>
    rw [List.flatMap_cons, savedFiles_append, ih]
    rfl

theorem savedFiles_goodEpochTrace (cfg : AEConfig) (env : Env) (e : ℕ) :
    savedFiles (goodEpochTrace cfg env e) =
      if (e + 1) % cfg.save_model_every_n_epoch = 0
        then [Artifact.epochFile (e + 1)] else [] := by
  unfold goodEpochTrace
  by_cases hmod : (e + 1) % cfg.save_model_every_n_epoch = 0
  · rw [if_pos hmod, if_pos hmod, savedFiles_append, savedFiles_append,
      savedFiles_append, savedFiles_batchLoop]
    rfl
  · rw [if_neg hmod, if_neg hmod, savedFiles_append, savedFiles_append,
      savedFiles_append, savedFiles_batchLoop]
    rfl

theorem savedFiles_flatMap_good (cfg : AEConfig) (env : Env) (l : List ℕ) :
    savedFiles (l.flatMap (goodEpochTrace cfg env)) =
      ((l.map (fun n => n + 1)).filter
        (fun n => decide (n % cfg.save_model_every_n_epoch = 0))).map
        Artifact.epochFile := by
  induction l with
  | nil => rfl
  | cons a l ih =>
    rw [List.flatMap_cons, savedFiles_append, savedFiles_goodEpochTrace, ih]
    by_cases hmod : (a + 1) % cfg.save_model_every_n_epoch = 0 <;>
      simp [hmod]

/-- The final state of a healthy complete run. -/
def goodFinalState (cfg : AEConfig) (env : Env) : RunState :=
  pushEvents
    (RunState.mk
      (preLoopState.events ++
        (List.range cfg.num_epoch).flatMap (goodEpochTrace cfg env))
      ((List.range cfg.num_epoch).map (epochAvg env)))
    [Event.plotCall ((List.range cfg.num_epoch).map (epochAvg env)) cfg.num_epoch,
     Event.saveWeights Artifact.finalFile]

/-- A healthy run completes and ends in `goodFinalState`. -/
theorem train_autoencoder_good (cfg : AEConfig) (env : Env)
    (hcsv : env.inputCsvExists = true) (hdir : env.trainingPathExists = false)
    (ha : archOk cfg = true) (hc : criterionOk cfg = true)
    (hB : 0 < env.numBatches) (hN : 0 < cfg.save_model_every_n_epoch) :
    train_autoencoder cfg env = Except.ok (goodFinalState cfg env) := by
  have hrun := runEpochs_good cfg env hc hB hN cfg.num_epoch
  unfold train_autoencoder
  rw [hcsv, hdir, ha, hrun]
  rfl

/-- C4: a healthy run with total epochs `E` and positive cadence `N`
writes intermediate checkpoints exactly at the 1-based epoch indices in
`[1..E]` that are multiples of `N`, each under the distinct filename
embedding that epoch number, followed by exactly one final checkpoint
under the fixed final filename. -/
theorem checkpoints_at_cadence (cfg : AEConfig) (env : Env)
    (hcsv : env.inputCsvExists = true) (hdir : env.trainingPathExists = false)
    (ha : archOk cfg = true) (hc : criterionOk cfg = true)
    (hB : 0 < env.numBatches) (hN : 0 < cfg.save_model_every_n_epoch) :
    ∃ s, train_autoencoder cfg env = Except.ok s ∧
      savedFiles s.events =
        (((List.range cfg.num_epoch).map (fun n => n + 1)).filter
          (fun n => decide (n % cfg.save_model_every_n_epoch = 0))).map
          Artifact.epochFile ++ [Artifact.finalFile] ∧
      (savedFiles s.events).Nodup := by
  refine ⟨goodFinalState cfg env,
    train_autoencoder_good cfg env hcsv hdir ha hc hB hN, ?_, ?_⟩
  · show savedFiles (_ ++ _) = _
    rw [savedFiles_append, savedFiles_append, savedFiles_flatMap_good]
    rfl
  · show List.Nodup (savedFiles (_ ++ _))
    rw [savedFiles_append, savedFiles_append, savedFiles_flatMap_good]
    show List.Nodup (([] ++ _) ++ [Artifact.finalFile])
    rw [List.nil_append]
    apply List.Nodup.append
    · apply List.Nodup.map
      · intro a b hab
        injection hab
      · apply List.Nodup.filter
        apply List.Nodup.map
        · exact fun a b hab => Nat.succ_injective hab
        · exact List.nodup_range _
    · exact List.nodup_singleton _
    · intro a ha1 ha2
      rcases List.mem_map.mp ha1 with ⟨n, _, hn⟩
      rcases List.mem_singleton.mp ha2 with rfl
      simp at hn

/-- Witness for C4 at the documented example: cadence 5, 12 epochs
yields checkpoints after epochs 5 and 10 plus the final one. -/
theorem checkpoints_at_cadence_witness :
    ∃ s, train_autoencoder (AEConfig.mk 3 "conv_autoencoder" "mse" 12 5)
        (Env.mk true false [0, 1] 1 (fun _ _ => 0) false) = Except.ok s ∧
      savedFiles s.events =
        [Artifact.epochFile 5, Artifact.epochFile 10, Artifact.finalFile] ∧
      (savedFiles s.events).Nodup := by
  obtain ⟨s, h1, h2, h3⟩ := checkpoints_at_cadence
    (AEConfig.mk 3 "conv_autoencoder" "mse" 12 5)
    (Env.mk true false [0, 1] 1 (fun _ _ => 0) false)
    rfl rfl rfl rfl (by decide) (by decide)
  refine ⟨s, h1, ?_, h3⟩
  rw [h2]
  rfl

/-! ## C5: reconstruction objective -/

/-- Any criterion call recorded inside one epoch trace targets exactly
`batchTarget` of its own epoch and batch. -/
theorem criterionCall_mem_goodEpochTrace (cfg : AEConfig) (env : Env)
    (x e b : ℕ) (t : BatchTensor)
    (h : Event.criterionCall e b t ∈ goodEpochTrace cfg env x) :
    e = x ∧ t = batchTarget cfg x b := by
  unfold goodEpochTrace batchLoop at h
  by_cases hmod : (x + 1) % cfg.save_model_every_n_epoch = 0
  · rw [if_pos hmod] at h
    simp only [List.mem_append, List.mem_cons, List.mem_singleton,
      List.mem_flatMap, List.not_mem_nil, or_false] at h
    rcases h with ((h | ⟨b', _, h⟩) | (h | h)) | h <;>
      simp_all
  · rw [if_neg hmod] at h
    simp only [List.mem_append, List.mem_cons, List.mem_singleton,
      List.mem_flatMap, List.not_mem_nil, or_false] at h
    rcases h with (h | ⟨b', _, h⟩) | (h | h) <;>
      simp_all

/-- C5: under the `conv_autoencoder` architecture, every criterion call
of a completed run supervises against the input image batch itself —
the rebinding `labels = images` fires on every batch of every epoch,
whatever the manifest labels were. -/
theorem conv_autoencoder_targets_input (cfg : AEConfig) (env : Env)
    (hcsv : env.inputCsvExists = true) (hdir : env.trainingPathExists = false)
    (ha : cfg.architecture_type = "conv_autoencoder")
    (hc : criterionOk cfg = true) (hB : 0 < env.numBatches)
    (hN : 0 < cfg.save_model_every_n_epoch)
    (s : RunState) (hs : train_autoencoder cfg env = Except.ok s)
    (e b : ℕ) (t : BatchTensor)
    (ht : Event.criterionCall e b t ∈ s.events) :
    t = BatchTensor.images e b := by
  have ha' : archOk cfg = true := by simp [archOk, ha]
  rw [train_autoencoder_good cfg env hcsv hdir ha' hc hB hN] at hs
  have hsv : s = goodFinalState cfg env := by
    injection hs with h
    exact h.symm
  subst hsv
  unfold goodFinalState pushEvents at ht
  simp only [List.mem_append, List.mem_cons, List.mem_singleton,
    List.mem_flatMap, preLoopState, List.not_mem_nil, or_false] at ht
  rcases ht with ((h | h | h) | ⟨x, _, h⟩) | (h | h)
  · exact absurd h (by simp)
  · exact absurd h (by simp)
  · exact absurd h (by simp)
  · have := criterionCall_mem_goodEpochTrace cfg env x e b t h
    rw [this.2, batchTarget, if_pos ha, ← this.1]
  · exact absurd h (by simp)
  · exact absurd h (by simp)

/-- Witness for C5: in a concrete two-epoch reconstruction run, the
criterion call of epoch 0, batch 0 is present in the trace and
targeting it through the theorem yields the input batch. -/
theorem conv_autoencoder_targets_input_witness :
    Event.criterionCall 0 0 (BatchTensor.images 0 0) ∈
      (goodFinalState (AEConfig.mk 3 "conv_autoencoder" "mse" 2 1)
        (Env.mk true false [0, 7] 1 (fun _ _ => 0) false)).events ∧
    BatchTensor.images 0 0 = BatchTensor.images 0 0 := by
  have hmem : Event.criterionCall 0 0 (BatchTensor.images 0 0) ∈
      (goodFinalState (AEConfig.mk 3 "conv_autoencoder" "mse" 2 1)
        (Env.mk true false [0, 7] 1 (fun _ _ => 0) false)).events := by
    show _ ∈ (preLoopState.events ++ (List.range 2).flatMap _) ++ _
    refine List.mem_append.mpr (Or.inl (List.mem_append.mpr (Or.inr ?_)))
    refine List.mem_flatMap.mpr ⟨0, by decide, ?_⟩
    unfold goodEpochTrace batchLoop
    simp [batchTarget]
  refine ⟨hmem, ?_⟩
  exact conv_autoencoder_targets_input
    (AEConfig.mk 3 "conv_autoencoder" "mse" 2 1)
    (Env.mk true false [0, 7] 1 (fun _ _ => 0) false)
    rfl rfl rfl rfl (by decide) (by decide) _
    (train_autoencoder_good _ _ rfl rfl rfl rfl (by decide) (by decide))
    0 0 _ hmem

/-! ## C8: loss history -/

/-- C8: after a healthy `E`-epoch run the loss history has length
exactly `E`; element `i` is the average loss of epoch `i`; and the
history is strictly append-only — the state after `k + 1` epochs
extends the state after `k` epochs by exactly the one average of epoch
`k`, so no prefix is ever truncated or rewritten. -/
theorem loss_history_append_only (cfg : AEConfig) (env : Env)
    (hcsv : env.inputCsvExists = true) (hdir : env.trainingPathExists = false)
    (ha : archOk cfg = true) (hc : criterionOk cfg = true)
    (hB : 0 < env.numBatches) (hN : 0 < cfg.save_model_every_n_epoch) :
    ∃ s, train_autoencoder cfg env = Except.ok s ∧
      s.loss_values.length = cfg.num_epoch ∧
      s.loss_values = (List.range cfg.num_epoch).map (epochAvg env) ∧
      (∀ i, i < cfg.num_epoch → s.loss_values.getD i 0 = epochAvg env i) ∧
      (∀ k, ∃ sk, runEpochs cfg env k = Except.ok sk ∧
        sk.loss_values = (List.range k).map (epochAvg env)) ∧
      (∀ k, ∃ sk sk', runEpochs cfg env k = Except.ok sk ∧
        runEpochs cfg env (k + 1) = Except.ok sk' ∧
        sk'.loss_values = sk.loss_values ++ [epochAvg env k]) := by
  refine ⟨goodFinalState cfg env,
    train_autoencoder_good cfg env hcsv hdir ha hc hB hN, ?_, ?_, ?_, ?_, ?_⟩
  · show (List.map _ _).length = _
    rw [List.length_map, List.length_range]
  · rfl
  · intro i hi
    show ((List.range cfg.num_epoch).map (epochAvg env)).getD i 0 = _
    rw [List.getD_eq_getElem?_getD, List.getElem?_map, List.getElem?_range hi]
    rfl
  · intro k
    exact ⟨_, runEpochs_good cfg env hc hB hN k, rfl⟩
  · intro k
    refine ⟨_, _, runEpochs_good cfg env hc hB hN k,
      runEpochs_good cfg env hc hB hN (k + 1), ?_⟩
    show (List.range (k + 1)).map (epochAvg env) = _
    rw [List.range_succ, List.map_append]
    rfl

/-- Witness for C8: a concrete three-epoch run has a loss history of
length 3 whose entries are the per-epoch averages. -/
theorem loss_history_append_only_witness :
    ∃ s, train_autoencoder (AEConfig.mk 3 "conv_autoencoder" "mse" 3 2)
        (Env.mk true false [0, 1] 2 (fun e b => (e : ℚ) + b) false) =
      Except.ok s ∧ s.loss_values.length = 3 := by
  obtain ⟨s, h1, h2, _⟩ := loss_history_append_only
    (AEConfig.mk 3 "conv_autoencoder" "mse" 3 2)
    (Env.mk true false [0, 1] 2 (fun e b => (e : ℚ) + b) false)
    rfl rfl rfl rfl (by decide) (by decide)
  exact ⟨s, h1, h2⟩

/-! ## C7: memory probe -/

/-- C7 counterexample: for a non-grayscale configuration the configured
channel count is 3, yet the probe input batch is built with channel
count 1 — `torch.randn((2, 1, h, w))` hardcodes a single channel, so
the synthetic batch does not match the configured channel count. -/
theorem memory_probe_channels_mismatch :
    (memory_usage (ProbeConfig.mk (64, 64) false) true 0 0 0 0).inputShape.c = 1 ∧
    configuredChannels (ProbeConfig.mk (64, 64) false) = 3 ∧
    (memory_usage (ProbeConfig.mk (64, 64) false) true 0 0 0 0).inputShape.c ≠
      configuredChannels (ProbeConfig.mk (64, 64) false) := by
  refine ⟨rfl, rfl, ?_⟩
  decide

/-- C7 amended: the probe builds one synthetic batch of exactly 2
images at the configured spatial resolution but with channel count
fixed at 1 (not taken from the configuration), runs a single forward
pass, and reports the memory delta in MiB (bytes divided by
1024 * 1024) in a string tagged `GPU` when the device is an accelerator
and `CPU` otherwise. -/
theorem memory_probe_report (cfg : ProbeConfig) (deviceIsCuda : Bool)
    (gpuBefore gpuAfter cpuBefore cpuAfter : ℤ) :
    (memory_usage cfg deviceIsCuda gpuBefore gpuAfter cpuBefore cpuAfter).inputShape =
      TensorShape.mk 2 1 cfg.target_size.1 cfg.target_size.2 ∧
    (memory_usage cfg deviceIsCuda gpuBefore gpuAfter cpuBefore cpuAfter).forwardPasses
      = 1 ∧
    (memory_usage cfg deviceIsCuda gpuBefore gpuAfter cpuBefore cpuAfter).tag =
      (if deviceIsCuda then "GPU Memory Used (MB)" else "CPU Memory Used (MB)") ∧
    (memory_usage cfg deviceIsCuda gpuBefore gpuAfter cpuBefore cpuAfter).deltaMiB =
      (if deviceIsCuda then ((gpuAfter - gpuBefore : ℤ) : ℚ)
        else ((cpuAfter - cpuBefore : ℤ) : ℚ)) / (1024 * 1024) := by
  unfold memory_usage
  cases deviceIsCuda <;> simp

/-! ## C10: plot length precondition -/

/-- C10: `plot_loss` draws `np.arange(1, num_epoch + 1)` — a list of
length exactly `num_epoch` — against `loss_values`, so whenever
`len(loss_values)` differs from `num_epoch` the two plotted sequences
have mismatched lengths and the plot call raises; when they agree it
succeeds.  The spec (§4.4) states no such precondition. -/
theorem plot_loss_length_precondition (loss_values : List ℚ) (num_epoch : ℕ)
    (h : loss_values.length ≠ num_epoch) :
    ((np_arange 1 (num_epoch + 1)).length = num_epoch) ∧
    plot_loss loss_values num_epoch = Except.error PlotError.dimensionMismatch := by
  have hlen : (np_arange 1 (num_epoch + 1)).length = num_epoch := by
    unfold np_arange
    rw [List.length_range']
    omega
  refine ⟨hlen, ?_⟩
  unfold plot_loss plt_plot
  rw [List.length_map, hlen]
  rw [if_neg (fun hh => h hh.symm)]

/-- Witness for C10: plotting a 2-element loss history against a
3-epoch axis raises the dimension-mismatch error. -/
theorem plot_loss_length_precondition_witness :
    ((np_arange 1 (3 + 1)).length = 3) ∧
    plot_loss [1, 2] 3 = Except.error PlotError.dimensionMismatch :=
  plot_loss_length_precondition [1, 2] 3 (by decide)

end PlanktonFusion
